import Mathlib

/-!
Shallow embedding of the V2 directed-graph travel-planning workflow
(`src_v2/`): the planning-record state, the seven node functions, the two
conditional-routing decisions and the full sequential run of the compiled
graph, together with theorems about routing, error accumulation, cost
computation and recommendation generation.

Modelling conventions:
* Python floats are modelled as `Rat` (exact rational arithmetic).
* Python `dict.get(k, default)` on the partial (`total=False`) TypedDicts is
  modelled by `Option` fields plus `Option.getD`; a JSON `null` stored under a
  key whose reads all use a falsy default is conflated with an absent key.
* The external completion service, the mock search providers and ISO date
  parsing are black boxes (per the spec they are out-of-scope collaborators);
  they are modelled by an `Env` of oracles.  Each oracle returns
  `Except String _`: the `.error` case models the call raising an exception,
  whose message string feeds the `except` handlers of the nodes.
* Each service node returns its state patch together with the parameter bag
  it sent to its provider (`none` when no provider call was made), so that
  "no external call made" is a provable statement.
-/

namespace TravelV2

/-- Python truthiness of an optional string: `None` and `""` are falsy. -/
def truthyStr : Option String → Bool
  | none => false
  | some s => s ≠ ""

/-- Python truthiness of an optional number: `None` and `0` are falsy. -/
def truthyRat : Option Rat → Bool
  | none => false
  | some q => q ≠ 0

/-- Boolean list-prefix test (used to state the append-only error policy). -/
def isPrefixL : List String → List String → Bool
  | [], _ => true
  | _ :: _, [] => false
  | a :: as, b :: bs => a = b && isPrefixL as bs

/-- Boolean list-prefix test on characters. -/
def listStarts : List Char → List Char → Bool
  | [], _ => true
  | _ :: _, [] => false
  | a :: as, b :: bs => a = b && listStarts as bs

/-- Contiguous-substring test on characters (Python `needle in hay`). -/
def listSub (needle : List Char) : List Char → Bool
  | [] => listStarts needle []
  | b :: bs => listStarts needle (b :: bs) || listSub needle bs

/-- Python `needle in hay` on strings. -/
def strHasSub (hay needle : String) : Bool :=
  listSub needle.toList hay.toList

/-- Value stored under the `activities` preference key: the activity node
distinguishes a list, a string, and anything else. -/
inductive ActPref where
  | listv (xs : List String)
  | strv (s : String)
  | otherv
deriving DecidableEq

/-- Intent-extraction preference bag (`preferences` dict); the keys the nodes
read: `cabin_class`, `hotel_rating`, `hotel_amenities`, `activities`. -/
structure Prefs where
  cabin_class : Option String := none
  hotel_rating : Option Rat := none
  hotel_amenities : Option (List String) := none
  activities : Option ActPref := none
deriving DecidableEq

/-- `FlightOption` TypedDict (`total=False`: every key may be absent). -/
structure FlightOption where
  flight_id : Option String := none
  airline : Option String := none
  origin : Option String := none
  destination : Option String := none
  departure_time : Option String := none
  arrival_time : Option String := none
  duration_minutes : Option Int := none
  price : Option Rat := none
  stops : Option Int := none
  cabin_class : Option String := none
deriving DecidableEq

/-- `HotelOption` TypedDict. -/
structure HotelOption where
  hotel_id : Option String := none
  name : Option String := none
  location : Option String := none
  rating : Option Rat := none
  price_per_night : Option Rat := none
  total_price : Option Rat := none
  amenities : Option (List String) := none
  distance_to_center : Option Rat := none
deriving DecidableEq

/-- `ActivityOption` TypedDict. -/
structure ActivityOption where
  activity_id : Option String := none
  name : Option String := none
  type : Option String := none
  description : Option String := none
  price : Option Rat := none
  duration_hours : Option Rat := none
  rating : Option Rat := none
deriving DecidableEq

/-- `WeatherInfo` TypedDict.  The schema declares `temperature_high` and
`temperature_low`; the weather node actually writes the undeclared keys
`temperature` and `humidity`, so both families of keys are modelled. -/
structure WeatherEntry where
  date : Option String := none
  temperature_high : Option Rat := none
  temperature_low : Option Rat := none
  temperature : Option Rat := none
  condition : Option String := none
  precipitation_chance : Option Rat := none
  humidity : Option Int := none
deriving DecidableEq

/-- `TravelPlannerState`: the Planning Record threaded through every node.
Fields the nodes never write (booking/payment/next_actions/retry) are
omitted; all reads use the `.get` defaults of the source. -/
structure PlannerState where
  user_query : String := ""
  origin : Option String := none
  destination : Option String := none
  departure_date : Option String := none
  return_date : Option String := none
  num_passengers : Option Int := none
  budget : Option Rat := none
  preferences : Prefs := {}
  intent : Option String := none
  requires_flights : Bool := false
  requires_hotels : Bool := false
  requires_activities : Bool := false
  requires_weather : Bool := false
  flight_options : List FlightOption := []
  selected_flight : Option FlightOption := none
  hotel_options : List HotelOption := []
  selected_hotel : Option HotelOption := none
  activity_options : List ActivityOption := []
  weather_forecast : List WeatherEntry := []
  total_cost : Rat := 0
  current_step : String := ""
  completed_steps : List String := []
  errors : List String := []
  response : Option String := none
  itinerary : Option String := none
  recommendations : List String := []
deriving DecidableEq

/-- Partial-update patch returned by a node; LangGraph merges it key-by-key
(last write wins, untouched keys keep their value — `TravelPlannerState` has
no `Annotated` reducers).  An outer `none` means the key is absent from the
returned dict. -/
structure StatePatch where
  intent : Option String := none
  origin : Option (Option String) := none
  destination : Option (Option String) := none
  departure_date : Option (Option String) := none
  return_date : Option (Option String) := none
  num_passengers : Option Int := none
  budget : Option (Option Rat) := none
  preferences : Option Prefs := none
  requires_flights : Option Bool := none
  requires_hotels : Option Bool := none
  requires_activities : Option Bool := none
  requires_weather : Option Bool := none
  flight_options : Option (List FlightOption) := none
  hotel_options : Option (List HotelOption) := none
  activity_options : Option (List ActivityOption) := none
  weather_forecast : Option (List WeatherEntry) := none
  total_cost : Option Rat := none
  current_step : Option String := none
  completed_steps : Option (List String) := none
  errors : Option (List String) := none
  response : Option String := none
  itinerary : Option (Option String) := none
  recommendations : Option (List String) := none

/-- Merge a node's patch into the state (LangGraph per-key overwrite). -/
def applyPatch (s : PlannerState) (p : StatePatch) : PlannerState :=
  { s with
    intent := match p.intent with | some v => some v | none => s.intent
    origin := p.origin.getD s.origin
    destination := p.destination.getD s.destination
    departure_date := p.departure_date.getD s.departure_date
    return_date := p.return_date.getD s.return_date
    num_passengers := match p.num_passengers with | some v => some v | none => s.num_passengers
    budget := p.budget.getD s.budget
    preferences := p.preferences.getD s.preferences
    requires_flights := p.requires_flights.getD s.requires_flights
    requires_hotels := p.requires_hotels.getD s.requires_hotels
    requires_activities := p.requires_activities.getD s.requires_activities
    requires_weather := p.requires_weather.getD s.requires_weather
    flight_options := p.flight_options.getD s.flight_options
    hotel_options := p.hotel_options.getD s.hotel_options
    activity_options := p.activity_options.getD s.activity_options
    weather_forecast := p.weather_forecast.getD s.weather_forecast
    total_cost := p.total_cost.getD s.total_cost
    current_step := p.current_step.getD s.current_step
    completed_steps := p.completed_steps.getD s.completed_steps
    errors := p.errors.getD s.errors
    response := match p.response with | some v => some v | none => s.response
    itinerary := p.itinerary.getD s.itinerary
    recommendations := p.recommendations.getD s.recommendations }

/-- Value stored under a raw flight's `airline` key: the node distinguishes
a dict (takes its `name`) from anything else (used as the airline string). -/
inductive AirlineVal where
  | strv (s : String)
  | dictv (name : Option String)
deriving DecidableEq

/-- Raw flight record returned by the mock flight provider (loosely typed;
every key may be absent). -/
structure RawFlight where
  flight_id : Option String := none
  airline : Option AirlineVal := none
  departure_time : Option String := none
  arrival_time : Option String := none
  total_price : Option Rat := none
  stops : Option Int := none
deriving DecidableEq

/-- Raw hotel record returned by the mock hotel provider. -/
structure RawHotel where
  hotel_id : Option String := none
  name : Option String := none
  rating : Option Rat := none
  price_per_night : Option Rat := none
  amenities : Option (List String) := none
deriving DecidableEq

/-- Raw activity record returned by the mock activity provider. -/
structure RawActivity where
  activity_id : Option String := none
  name : Option String := none
  category : Option String := none
  description : Option String := none
  price : Option Rat := none
  duration_hours : Option Rat := none
  rating : Option Rat := none
deriving DecidableEq

/-- Value stored under a raw forecast day's `temperature` key: a dict (the
node takes its `day` entry) or a bare number. -/
inductive TempVal where
  | numv (q : Rat)
  | dictv (day : Option Rat)
deriving DecidableEq

/-- Raw forecast-day record returned by the mock weather provider. -/
structure RawWeatherDay where
  date : Option String := none
  temperature : Option TempVal := none
  condition : Option String := none
  precipitation_chance : Option Rat := none
  humidity : Option Int := none
deriving DecidableEq

/-- Provider result shape for flight/hotel/activity tools: a bare list, a
dict possibly wrapping the list under `flights`/`hotels`/`activities` or
`options`, or any other value. -/
inductive ToolRes (α : Type) where
  | asList (xs : List α)
  | asDict (primary : Option (List α)) (options : Option (List α))
  | other
deriving DecidableEq

/-- Normalization of a flight/hotel/activity tool result, as written in each
node: a bare list is taken as-is; a dict needs the category key or `options`;
anything else yields no records. -/
def normalizeTR {α : Type} : ToolRes α → List α
  | .asList xs => xs
  | .asDict primary options => primary.getD (options.getD [])
  | .other => []

/-- Weather tool result: a dict possibly holding `daily_forecast`,
`forecast` or `daily`, or any other value. -/
inductive WeatherToolRes where
  | dictw (daily_forecast forecast daily : Option (List RawWeatherDay))
  | otherw
deriving DecidableEq

/-- Normalization of the weather tool result (`daily_forecast` first, then
`forecast`, then `daily`). -/
def normalizeWR : WeatherToolRes → List RawWeatherDay
  | .dictw df f d => df.getD (f.getD (d.getD []))
  | .otherw => []

/-- Parameter bag sent to the flight provider. -/
structure FlightSearchParams where
  origin : String
  destination : String
  departure_date : String
  passengers : Int
  return_date : Option String := none
  max_price : Option Rat := none
  cabin_class : String
deriving DecidableEq

/-- Parameter bag sent to the hotel provider. -/
structure HotelSearchParams where
  city : String
  check_in : String
  check_out : String
  guests : Int
  max_price_per_night : Option Rat := none
  min_rating : Rat
  amenities : Option (List String) := none
deriving DecidableEq

/-- Parameter bag sent to the weather provider. -/
structure WeatherParams where
  city : String
  date : String
  days : Int
deriving DecidableEq

/-- Parameter bag sent to the activity provider. -/
structure ActivitySearchParams where
  city : String
  category : Option String := none
  max_price : Option Rat := none
deriving DecidableEq

/-- Parsed JSON object produced by `extract_json_from_text` on the
completion-service reply during intent classification; each field is what
`result.get(key)` observes (`none` = key absent). -/
structure IntentJson where
  intent : Option String := none
  origin : Option String := none
  destination : Option String := none
  departure_date : Option String := none
  return_date : Option String := none
  num_passengers : Option Int := none
  budget : Option Rat := none
  requires_flights : Option Bool := none
  requires_hotels : Option Bool := none
  requires_activities : Option Bool := none
  requires_weather : Option Bool := none
  preferences : Option Prefs := none

/-- Oracle environment: the external completion service, the four mock
search providers and ISO date parsing.  Every `.error e` models the call
raising an exception with message `e`. -/
structure Env where
  classifyResult : Except String IntentJson
  flightTool : FlightSearchParams → Except String (ToolRes RawFlight)
  hotelTool : HotelSearchParams → Except String (ToolRes RawHotel)
  weatherTool : WeatherParams → Except String WeatherToolRes
  activityTool : ActivitySearchParams → Except String (ToolRes RawActivity)
  parseDate : String → Except String Int
  itineraryLLM : Except String String
  responseLLM : Except String String

/-- Intent classification node (`classify_intent_node`). -/
def classify_intent_node (s : PlannerState) (env : Env) : StatePatch :=
  if s.user_query = "" then
    { intent := some "general"
      requires_flights := some false
      requires_hotels := some false
      requires_activities := some false
      requires_weather := some false
      errors := some ["No user query provided"]
      current_step := some "intent_classification"
      completed_steps := some (s.completed_steps ++ ["intent_classification"]) }
  else
    match env.classifyResult with
    | .ok j =>
      { intent := some (j.intent.getD "general")
        origin := some j.origin
        destination := some j.destination
        departure_date := some j.departure_date
        return_date := some j.return_date
        num_passengers := some (j.num_passengers.getD 1)
        budget := some j.budget
        requires_flights := some (j.requires_flights.getD false)
        requires_hotels := some (j.requires_hotels.getD false)
        requires_activities := some (j.requires_activities.getD false)
        requires_weather := some (j.requires_weather.getD false)
        preferences := some (j.preferences.getD {})
        current_step := some "intent_classification"
        completed_steps := some (s.completed_steps ++ ["intent_classification"])
        errors := some s.errors }
    | .error e =>
      { intent := some "general"
        errors := some (s.errors ++ ["Intent classification error: " ++ e])
        current_step := some "intent_classification"
        completed_steps := some (s.completed_steps ++ ["intent_classification"]) }

/-- Mapping of a raw flight into the `FlightOption` shape (flight node). -/
def rawFlightToOption (o d cab : String) (f : RawFlight) : FlightOption :=
  { flight_id := some (f.flight_id.getD "")
    airline := some (match f.airline with
      | some (.dictv n) => n.getD ""
      | some (.strv a) => a
      | none => "")
    origin := some o
    destination := some d
    departure_time := some (f.departure_time.getD "")
    arrival_time := some (f.arrival_time.getD "")
    duration_minutes := some 0
    price := some (f.total_price.getD 0)
    stops := some (f.stops.getD 0)
    cabin_class := some cab }

/-- Flight search node (`search_flights_node`); the second component is the
parameter bag sent to the provider, `none` when no provider call was made. -/
def search_flights_node (s : PlannerState) (env : Env) :
    StatePatch × Option FlightSearchParams :=
  if !s.requires_flights then
    ({ flight_options := some []
       completed_steps := some (s.completed_steps ++ ["flight_search_skipped"]) },
     none)
  else if !(truthyStr s.origin && truthyStr s.destination &&
            truthyStr s.departure_date) then
    ({ errors := some (s.errors ++
         ["Missing required flight parameters: origin, destination, or departure_date"])
       current_step := some "flight_search"
       completed_steps := some (s.completed_steps ++ ["flight_search"]) },
     none)
  else
    let o := s.origin.getD ""
    let d := s.destination.getD ""
    let dep := s.departure_date.getD ""
    let pax : Int := match s.num_passengers with
      | none => 1
      | some n => if n = 0 then 1 else n
    let cab := s.preferences.cabin_class.getD "economy"
    let params : FlightSearchParams :=
      { origin := o, destination := d, departure_date := dep, passengers := pax
        return_date := if truthyStr s.return_date then s.return_date else none
        max_price := if truthyRat s.budget then s.budget else none
        cabin_class := cab }
    match env.flightTool params with
    | .ok r =>
      ({ flight_options := some (((normalizeTR r).take 5).map (rawFlightToOption o d cab))
         current_step := some "flight_search"
         completed_steps := some (s.completed_steps ++ ["flight_search"])
         errors := some s.errors },
       some params)
    | .error e =>
      ({ flight_options := some []
         errors := some (s.errors ++ ["Flight search error: " ++ e])
         current_step := some "flight_search"
         completed_steps := some (s.completed_steps ++ ["flight_search"]) },
       some params)

/-- Mapping of a raw hotel into the `HotelOption` shape (hotel node). -/
def rawHotelToOption (dst : String) (nights : Int) (h : RawHotel) : HotelOption :=
  let ppn := h.price_per_night.getD 0
  { hotel_id := some (h.hotel_id.getD "")
    name := some (h.name.getD "")
    location := some dst
    rating := some (h.rating.getD 0)
    price_per_night := some ppn
    total_price := some (ppn * (nights : Rat))
    amenities := some (h.amenities.getD [])
    distance_to_center := some 0 }

/-- Hotel search node (`search_hotels_node`). -/
def search_hotels_node (s : PlannerState) (env : Env) :
    StatePatch × Option HotelSearchParams :=
  if !s.requires_hotels then
    ({ hotel_options := some []
       completed_steps := some (s.completed_steps ++ ["hotel_search_skipped"]) },
     none)
  else if !(truthyStr s.destination && truthyStr s.departure_date &&
            truthyStr s.return_date) then
    ({ errors := some (s.errors ++ ["Missing required hotel parameters: destination or dates"])
       current_step := some "hotel_search"
       completed_steps := some (s.completed_steps ++ ["hotel_search"]) },
     none)
  else
    let dst := s.destination.getD ""
    let dep := s.departure_date.getD ""
    let ret := s.return_date.getD ""
    let failPatch : String → StatePatch := fun e =>
      { hotel_options := some []
        errors := some (s.errors ++ ["Hotel search error: " ++ e])
        current_step := some "hotel_search"
        completed_steps := some (s.completed_steps ++ ["hotel_search"]) }
    match env.parseDate dep with
    | .error e => (failPatch e, none)
    | .ok checkIn =>
      match env.parseDate ret with
      | .error e => (failPatch e, none)
      | .ok checkOut =>
        let nights := checkOut - checkIn
        if nights ≤ 0 then
          ({ errors := some (s.errors ++ ["Invalid date range for hotel stay"])
             current_step := some "hotel_search"
             completed_steps := some (s.completed_steps ++ ["hotel_search"]) },
           none)
        else
          let params : HotelSearchParams :=
            { city := dst, check_in := dep, check_out := ret
              guests := s.num_passengers.getD 1
              max_price_per_night :=
                if truthyRat s.budget then
                  some (s.budget.getD 0 * (2 / 5 : Rat) / (nights : Rat))
                else none
              min_rating := s.preferences.hotel_rating.getD 3
              amenities := s.preferences.hotel_amenities }
          match env.hotelTool params with
          | .ok r =>
            ({ hotel_options :=
                 some (((normalizeTR r).take 5).map (rawHotelToOption dst nights))
               current_step := some "hotel_search"
               completed_steps := some (s.completed_steps ++ ["hotel_search"])
               errors := some s.errors },
             some params)
          | .error e => (failPatch e, some params)

/-- Mapping of a raw forecast day into the `WeatherInfo` shape (weather
node).  Note the value lands under `temperature` (with `humidity`), not
under the schema's `temperature_high`/`temperature_low`. -/
def rawDayToWeather (day : RawWeatherDay) : WeatherEntry :=
  { date := some (day.date.getD "")
    temperature := some (match day.temperature with
      | some (.dictv d) => d.getD 0
      | some (.numv q) => q
      | none => 0)
    condition := some (day.condition.getD "")
    precipitation_chance := some (day.precipitation_chance.getD 0)
    humidity := some (day.humidity.getD 0) }

/-- Weather forecast node (`check_weather_node`). -/
def check_weather_node (s : PlannerState) (env : Env) :
    StatePatch × Option WeatherParams :=
  if !s.requires_weather then
    ({ weather_forecast := some []
       completed_steps := some (s.completed_steps ++ ["weather_check_skipped"]) },
     none)
  else if !(truthyStr s.destination && truthyStr s.departure_date) then
    ({ errors := some (s.errors ++
         ["Missing required weather parameters: destination or departure_date"])
       current_step := some "weather_check"
       completed_steps := some (s.completed_steps ++ ["weather_check"]) },
     none)
  else
    let dst := s.destination.getD ""
    let dep := s.departure_date.getD ""
    let failPatch : String → StatePatch := fun e =>
      { weather_forecast := some []
        errors := some (s.errors ++ ["Weather check error: " ++ e])
        current_step := some "weather_check"
        completed_steps := some (s.completed_steps ++ ["weather_check"]) }
    match env.parseDate dep with
    | .error e => (failPatch e, none)
    | .ok start =>
      let endRes : Except String Int :=
        if truthyStr s.return_date then env.parseDate (s.return_date.getD "")
        else .ok start
      match endRes with
      | .error e => (failPatch e, none)
      | .ok stop =>
        let days := stop - start + 1
        let params : WeatherParams := { city := dst, date := dep, days := min days 14 }
        match env.weatherTool params with
        | .ok r =>
          ({ weather_forecast := some ((normalizeWR r).map rawDayToWeather)
             current_step := some "weather_check"
             completed_steps := some (s.completed_steps ++ ["weather_check"])
             errors := some s.errors },
           some params)
        | .error e => (failPatch e, some params)

/-- Mapping of a raw activity into the `ActivityOption` shape. -/
def rawActivityToOption (a : RawActivity) : ActivityOption :=
  { activity_id := some (a.activity_id.getD "")
    name := some (a.name.getD "")
    type := some (a.category.getD "")
    description := some (a.description.getD "")
    price := some (a.price.getD 0)
    duration_hours := some (a.duration_hours.getD 0)
    rating := some (a.rating.getD 0) }

/-- Activity search node (`search_activities_node`). -/
def search_activities_node (s : PlannerState) (env : Env) :
    StatePatch × Option ActivitySearchParams :=
  if !s.requires_activities then
    ({ activity_options := some []
       completed_steps := some (s.completed_steps ++ ["activity_search_skipped"]) },
     none)
  else if !truthyStr s.destination then
    ({ errors := some (s.errors ++ ["Missing destination for activity search"])
       current_step := some "activity_search"
       completed_steps := some (s.completed_steps ++ ["activity_search"]) },
     none)
  else
    let dst := s.destination.getD ""
    let params : ActivitySearchParams :=
      { city := dst
        category := match s.preferences.activities with
          | some (.listv (x :: _)) => some x
          | some (.strv v) => some v
          | _ => none
        max_price :=
          if truthyRat s.budget then some (s.budget.getD 0 * (1 / 5 : Rat))
          else none }
    match env.activityTool params with
    | .ok r =>
      ({ activity_options := some (((normalizeTR r).take 10).map rawActivityToOption)
         current_step := some "activity_search"
         completed_steps := some (s.completed_steps ++ ["activity_search"])
         errors := some s.errors },
       some params)
    | .error e =>
      ({ activity_options := some []
         errors := some (s.errors ++ ["Activity search error: " ++ e])
         current_step := some "activity_search"
         completed_steps := some (s.completed_steps ++ ["activity_search"]) },
       some params)

/-- Python `min(flight_options, key=lambda f: f.get('price', float('inf')))`
comparison: an absent price counts as plus infinity. -/
def priceInfLt : Option Rat → Option Rat → Bool
  | some a, some b => a < b
  | some _, none => true
  | none, _ => false

/-- Python `min` with a key over a non-empty list: keeps the current best
unless the candidate's key is strictly smaller (first minimum wins). -/
def pyMinPrice (x : FlightOption) (xs : List FlightOption) : FlightOption :=
  xs.foldl (fun best y => if priceInfLt y.price best.price then y else best) x

/-- Python `max(hotel_options, key=lambda h: h.get('rating', 0))` over a
non-empty list: replaces the best only on a strictly larger key (first
maximum wins). -/
def pyMaxRating (x : HotelOption) (xs : List HotelOption) : HotelOption :=
  xs.foldl (fun best y => if best.rating.getD 0 < y.rating.getD 0 then y else best) x

/-- Flight whose details the itinerary prose interpolates: the explicitly
selected flight, else the cheapest option (labelled "Best available option"),
else nothing. -/
def itinShownFlight (s : PlannerState) : Option FlightOption :=
  match s.selected_flight with
  | some f => some f
  | none =>
    match s.flight_options with
    | [] => none
    | x :: xs => some (pyMinPrice x xs)

/-- Hotel whose details the itinerary prose interpolates: the explicitly
selected hotel, else the highest-rated option (labelled "Best rated
option"), else nothing. -/
def itinShownHotel (s : PlannerState) : Option HotelOption :=
  match s.selected_hotel with
  | some h => some h
  | none =>
    match s.hotel_options with
    | [] => none
    | x :: xs => some (pyMaxRating x xs)

/-- Total-cost computation of the itinerary node (source lines 157-167):
`selected_flight or flight_options[0]` price times passenger count, plus
`selected_hotel or hotel_options[0]` precomputed total price. -/
def itinTotalCost (s : PlannerState) : Rat :=
  let pax : Int := s.num_passengers.getD 1
  let flightPart : Rat :=
    if s.selected_flight.isSome || !s.flight_options.isEmpty then
      match s.selected_flight <|> s.flight_options.head? with
      | some f => f.price.getD 0 * (pax : Rat)
      | none => 0
    else 0
  let hotelPart : Rat :=
    if s.selected_hotel.isSome || !s.hotel_options.isEmpty then
      match s.selected_hotel <|> s.hotel_options.head? with
      | some h => h.total_price.getD 0
      | none => 0
    else 0
  flightPart + hotelPart

/-- Display rendering of a currency amount (the source uses `%.2f`
formatting; only presence and identity of the messages matter here). -/
def fmtMoney (q : Rat) : String := toString q

/-- Budget recommendation of the itinerary node: only when the budget is
truthy and the computed total cost is positive. -/
def itinBudgetRecs (s : PlannerState) : List String :=
  if truthyRat s.budget && decide (0 < itinTotalCost s) then
    let remaining := s.budget.getD 0 - itinTotalCost s
    if 0 < remaining then
      ["You have $" ++ fmtMoney remaining ++ " remaining for activities and dining"]
    else
      ["Current selections exceed budget by $" ++ fmtMoney |remaining|]
  else []

/-- Packing recommendation of the itinerary node, keyed off the average of
`w.get('temperature_high', 0)` over the forecast entries. -/
def itinPackRecs (s : PlannerState) : List String :=
  if s.weather_forecast.isEmpty then []
  else
    let avg : Rat :=
      ((s.weather_forecast.map (fun w => w.temperature_high.getD 0)).sum) /
        (s.weather_forecast.length : Rat)
    if avg < 50 then ["Pack warm clothing - temperatures will be cool"]
    else if 80 < avg then ["Pack light, breathable clothing - warm weather expected"]
    else []

/-- Recommendation list produced by the itinerary node. -/
def itinRecs (s : PlannerState) : List String :=
  itinBudgetRecs s ++ itinPackRecs s

/-- Itinerary generation node (`generate_itinerary_node`); the entire body
runs inside one try/except whose only external call is the completion
service. -/
def generate_itinerary_node (s : PlannerState) (env : Env) : StatePatch :=
  match env.itineraryLLM with
  | .ok content =>
    { itinerary := some (some content)
      total_cost := some (itinTotalCost s)
      recommendations := some (itinRecs s)
      current_step := some "itinerary_generation"
      completed_steps := some (s.completed_steps ++ ["itinerary_generation"])
      errors := some s.errors }
  | .error e =>
    { itinerary := some none
      errors := some (s.errors ++ ["Itinerary generation error: " ++ e])
      current_step := some "itinerary_generation"
      completed_steps := some (s.completed_steps ++ ["itinerary_generation"]) }

/-- Fallback reply of the response node's except handler. -/
def responseFallback : String :=
  "I apologize, but I encountered an error while generating a response. Please try again."

/-- Response generation node (`generate_response_node`): the summary
building never raises, so the except handler fires exactly on a
completion-service failure.  On success the patch carries no `errors` key;
on failure it carries no `completed_steps` key. -/
def generate_response_node (s : PlannerState) (env : Env) : StatePatch :=
  match env.responseLLM with
  | .ok content =>
    { response := some content
      current_step := some "response_generation"
      completed_steps := some (s.completed_steps ++ ["response_generation"]) }
  | .error e =>
    { response := some responseFallback
      errors := some (s.errors ++ ["Response generation error: " ++ e]) }

/-- Outcome of the first conditional-routing decision. -/
inductive Route1 where
  | search
  | finish
deriving DecidableEq

/-- First routing decision (`route_after_intent`): straight to the response
generator on a missing-query error or a `general` intent, otherwise into the
service chain. -/
def route_after_intent (s : PlannerState) : Route1 :=
  let intent := s.intent.getD "general"
  if !s.errors.isEmpty && s.errors.any (fun e => strHasSub e "No user query") then
    .finish
  else if intent = "general" then .finish
  else if intent = "plan_trip" then .search
  else .search

/-- Outcome of the second conditional-routing decision. -/
inductive Route2 where
  | toItinerary
  | finish
deriving DecidableEq

/-- Second routing decision (`route_after_parallel_search`): single-category
search intents end; `plan_trip` generates an itinerary exactly when flights
or hotels produced results; everything else ends. -/
def route_after_parallel_search (s : PlannerState) : Route2 :=
  let intent := s.intent.getD "general"
  if intent = "search_flights" || intent = "search_hotels" ||
     intent = "search_activities" || intent = "check_weather" then .finish
  else if intent = "plan_trip" then
    if !s.flight_options.isEmpty || !s.hotel_options.isEmpty then .toItinerary
    else .finish
  else .finish

/-- State after the intent-classification node. -/
def afterClassify (env : Env) (s0 : PlannerState) : PlannerState :=
  applyPatch s0 (classify_intent_node s0 env)

/-- State after the fixed four-node service chain
(flights → hotels → weather → activities). -/
def afterChain (env : Env) (s0 : PlannerState) : PlannerState :=
  let s1 := afterClassify env s0
  let s2 := applyPatch s1 (search_flights_node s1 env).1
  let s3 := applyPatch s2 (search_hotels_node s2 env).1
  let s4 := applyPatch s3 (check_weather_node s3 env).1
  applyPatch s4 (search_activities_node s4 env).1

/-- One full run of the compiled V2 graph (`create_travel_workflow`):
classification, first routing decision, the flag-gated service chain,
second routing decision, optional itinerary generation, and the terminal
response generator.  Returns the final state together with the trace of
executed node names. -/
def runWorkflow (env : Env) (s0 : PlannerState) : PlannerState × List String :=
  let s1 := afterClassify env s0
  match route_after_intent s1 with
  | .finish =>
    (applyPatch s1 (generate_response_node s1 env),
     ["classify_intent", "response_generator"])
  | .search =>
    let s5 := afterChain env s0
    let chainTrace := ["classify_intent", "search_flights", "search_hotels",
                       "check_weather", "search_activities"]
    match route_after_parallel_search s5 with
    | .toItinerary =>
      let s6 := applyPatch s5 (generate_itinerary_node s5 env)
      (applyPatch s6 (generate_response_node s6 env),
       chainTrace ++ ["generate_itinerary", "response_generator"])
    | .finish =>
      (applyPatch s5 (generate_response_node s5 env),
       chainTrace ++ ["response_generator"])

/-- Default oracle environment used by concrete witnesses: a failing
completion service for classification, succeeding composers, and providers
returning an unrecognized result shape. -/
def envN : Env :=
  { classifyResult := .error "parse failure"
    flightTool := fun _ => .ok .other
    hotelTool := fun _ => .ok .other
    weatherTool := fun _ => .ok .otherw
    activityTool := fun _ => .ok .other
    parseDate := fun _ => .ok 0
    itineraryLLM := .ok "itinerary text"
    responseLLM := .ok "final reply" }

theorem isPrefixL_append (l t : List String) : isPrefixL l (l ++ t) = true := by
  induction l with
  | nil => rfl
  | cons a as ih => simp [isPrefixL, ih]

theorem isPrefixL_refl (l : List String) : isPrefixL l l = true := by
  have h := isPrefixL_append l []
  simpa using h

theorem not_mem_append_single {l : List String} {a b : String}
    (h : a ∉ l) (hne : a ≠ b) : a ∉ l ++ [b] := by
  intro hm
  rcases List.mem_append.mp hm with h1 | h2
  · exact h h1
  · exact hne (List.mem_singleton.mp h2)

/-- C3: for every state with a false routing flag, the corresponding service
node leaves an empty result list, records no error, makes no provider call,
and appends the category's "_skipped" marker to the completed-steps list. -/
theorem c3_flag_false_skips_category (s : PlannerState) (env : Env) :
    (s.requires_flights = false →
      (applyPatch s (search_flights_node s env).1).flight_options = [] ∧
      (applyPatch s (search_flights_node s env).1).errors = s.errors ∧
      (applyPatch s (search_flights_node s env).1).completed_steps
        = s.completed_steps ++ ["flight_search_skipped"] ∧
      (search_flights_node s env).2 = none) ∧
    (s.requires_hotels = false →
      (applyPatch s (search_hotels_node s env).1).hotel_options = [] ∧
      (applyPatch s (search_hotels_node s env).1).errors = s.errors ∧
      (applyPatch s (search_hotels_node s env).1).completed_steps
        = s.completed_steps ++ ["hotel_search_skipped"] ∧
      (search_hotels_node s env).2 = none) ∧
    (s.requires_weather = false →
      (applyPatch s (check_weather_node s env).1).weather_forecast = [] ∧
      (applyPatch s (check_weather_node s env).1).errors = s.errors ∧
      (applyPatch s (check_weather_node s env).1).completed_steps
        = s.completed_steps ++ ["weather_check_skipped"] ∧
      (check_weather_node s env).2 = none) ∧
    (s.requires_activities = false →
      (applyPatch s (search_activities_node s env).1).activity_options = [] ∧
      (applyPatch s (search_activities_node s env).1).errors = s.errors ∧
      (applyPatch s (search_activities_node s env).1).completed_steps
        = s.completed_steps ++ ["activity_search_skipped"] ∧
      (search_activities_node s env).2 = none) := by
  refine ⟨fun h => ?_, fun h => ?_, fun h => ?_, fun h => ?_⟩ <;>
    simp [search_flights_node, search_hotels_node, check_weather_node,
          search_activities_node, h, applyPatch]

/-- Witness for C3 at a concrete all-flags-false state. -/
theorem c3_flag_false_skips_category_witness :
    (applyPatch {} (search_flights_node {} envN).1).flight_options = [] ∧
    (applyPatch {} (search_flights_node {} envN).1).errors = ([] : List String) ∧
    (applyPatch {} (search_flights_node {} envN).1).completed_steps
      = [] ++ ["flight_search_skipped"] ∧
    (search_flights_node {} envN).2 = none :=
  (c3_flag_false_skips_category {} envN).1 rfl

/-- C6: for every state with a true routing flag but a missing required
field, the node appends exactly its one category error, leaves the (empty)
result list empty, makes no provider call, and still marks the step
completed so the chain continues. -/
theorem c6_missing_fields_degrade (s : PlannerState) (env : Env) :
    (s.requires_flights = true →
      (truthyStr s.origin && truthyStr s.destination &&
        truthyStr s.departure_date) = false →
      s.flight_options = [] →
      (applyPatch s (search_flights_node s env).1).errors
        = s.errors ++
          ["Missing required flight parameters: origin, destination, or departure_date"] ∧
      (applyPatch s (search_flights_node s env).1).flight_options = [] ∧
      (applyPatch s (search_flights_node s env).1).completed_steps
        = s.completed_steps ++ ["flight_search"] ∧
      (search_flights_node s env).2 = none) ∧
    (s.requires_hotels = true →
      (truthyStr s.destination && truthyStr s.departure_date &&
        truthyStr s.return_date) = false →
      s.hotel_options = [] →
      (applyPatch s (search_hotels_node s env).1).errors
        = s.errors ++ ["Missing required hotel parameters: destination or dates"] ∧
      (applyPatch s (search_hotels_node s env).1).hotel_options = [] ∧
      (applyPatch s (search_hotels_node s env).1).completed_steps
        = s.completed_steps ++ ["hotel_search"] ∧
      (search_hotels_node s env).2 = none) ∧
    (s.requires_weather = true →
      (truthyStr s.destination && truthyStr s.departure_date) = false →
      s.weather_forecast = [] →
      (applyPatch s (check_weather_node s env).1).errors
        = s.errors ++
          ["Missing required weather parameters: destination or departure_date"] ∧
      (applyPatch s (check_weather_node s env).1).weather_forecast = [] ∧
      (applyPatch s (check_weather_node s env).1).completed_steps
        = s.completed_steps ++ ["weather_check"] ∧
      (check_weather_node s env).2 = none) := by
  refine ⟨fun h hv he => ?_, fun h hv he => ?_, fun h hv he => ?_⟩ <;>
    simp [search_flights_node, search_hotels_node, check_weather_node,
          h, hv, he, applyPatch]

/-- Witness for C6 at a concrete state with all flags on and no request
fields. -/
theorem c6_missing_fields_degrade_witness :
    (applyPatch
        { requires_flights := true, requires_hotels := true,
          requires_weather := true, requires_activities := true }
        (search_flights_node
          { requires_flights := true, requires_hotels := true,
            requires_weather := true, requires_activities := true } envN).1).errors
      = [] ++
        ["Missing required flight parameters: origin, destination, or departure_date"] ∧
    (applyPatch
        { requires_flights := true, requires_hotels := true,
          requires_weather := true, requires_activities := true }
        (search_flights_node
          { requires_flights := true, requires_hotels := true,
            requires_weather := true, requires_activities := true } envN).1).flight_options
      = [] ∧
    (applyPatch
        { requires_flights := true, requires_hotels := true,
          requires_weather := true, requires_activities := true }
        (search_flights_node
          { requires_flights := true, requires_hotels := true,
            requires_weather := true, requires_activities := true } envN).1).completed_steps
      = [] ++ ["flight_search"] ∧
    (search_flights_node
        { requires_flights := true, requires_hotels := true,
          requires_weather := true, requires_activities := true } envN).2 = none :=
  (c6_missing_fields_degrade
    { requires_flights := true, requires_hotels := true,
      requires_weather := true, requires_activities := true } envN).1 rfl rfl rfl

/-- C10: a budget of exactly 0 is falsy throughout: the flight, hotel and
activity nodes send no price-cap parameter, and the itinerary composer emits
no budget recommendation even with a positive total cost — unlike any
strictly positive budget, which yields a price cap and (with positive total
cost) a budget recommendation. -/
theorem c10_zero_budget_is_no_budget (s : PlannerState) (env : Env) :
    (s.budget = some 0 → s.requires_flights = true →
      (truthyStr s.origin && truthyStr s.destination &&
        truthyStr s.departure_date) = true →
      ∃ p, (search_flights_node s env).2 = some p ∧ p.max_price = none) ∧
    (s.budget = some 0 → s.requires_hotels = true →
      (truthyStr s.destination && truthyStr s.departure_date &&
        truthyStr s.return_date) = true →
      ∀ ci co : Int,
        env.parseDate (s.departure_date.getD "") = .ok ci →
        env.parseDate (s.return_date.getD "") = .ok co →
        0 < co - ci →
        ∃ p, (search_hotels_node s env).2 = some p ∧
          p.max_price_per_night = none) ∧
    (s.budget = some 0 → s.requires_activities = true →
      truthyStr s.destination = true →
      ∃ p, (search_activities_node s env).2 = some p ∧ p.max_price = none) ∧
    (s.budget = some 0 →
      itinBudgetRecs s = [] ∧ itinRecs s = itinPackRecs s) ∧
    (∀ b : Rat, s.budget = some b → 0 < b →
      (s.requires_flights = true →
        (truthyStr s.origin && truthyStr s.destination &&
          truthyStr s.departure_date) = true →
        ∃ p, (search_flights_node s env).2 = some p ∧ p.max_price = some b) ∧
      (0 < itinTotalCost s → itinBudgetRecs s ≠ [])) := by
  refine ⟨fun hb hf hv => ?_, fun hb hf hv ci co hci hco hn => ?_,
          fun hb hf hv => ?_, fun hb => ?_, fun b hb hpos => ⟨fun hf hv => ?_, fun ht => ?_⟩⟩
  · simp only [search_flights_node, hf, hv, hb]
    cases env.flightTool _ <;>
      exact ⟨_, rfl, by simp [truthyRat]⟩
  · simp only [search_hotels_node, hf, hv, hb, hci, hco]
    simp only [Bool.not_true, Bool.false_eq_true, if_false, if_neg (not_le.mpr hn)]
    cases env.hotelTool _ <;>
      exact ⟨_, rfl, by simp [truthyRat]⟩
  · simp only [search_activities_node, hf, hv, hb]
    cases env.activityTool _ <;>
      exact ⟨_, rfl, by simp [truthyRat]⟩
  · constructor
    · simp [itinBudgetRecs, hb, truthyRat]
    · simp [itinRecs, itinBudgetRecs, hb, truthyRat]
  · simp only [search_flights_node, hf, hv, hb]
    cases env.flightTool _ <;>
      exact ⟨_, rfl, by simp [truthyRat, ne_of_gt hpos]⟩
  · simp [itinBudgetRecs, hb, truthyRat, ne_of_gt hpos, ht]
    split <;> simp

/-- Witness for C10: zero budget at a fully-populated request state. -/
theorem c10_zero_budget_is_no_budget_witness :
    ∃ p, (search_flights_node
        { budget := some 0, requires_flights := true, origin := some "NYC",
          destination := some "Paris", departure_date := some "2025-12-20" }
        envN).2 = some p ∧ p.max_price = none :=
  (c10_zero_budget_is_no_budget
    { budget := some 0, requires_flights := true, origin := some "NYC",
      destination := some "Paris", departure_date := some "2025-12-20" }
    envN).1 rfl rfl (by decide)

/-- Flight option of the spec's example with price 500. -/
def exF500 : FlightOption := { price := some 500 }

/-- Flight option of the spec's example with price 300. -/
def exF300 : FlightOption := { price := some 300 }

/-- The spec example state for total-cost computation: flight options
[{price:500},{price:300}], nothing explicitly selected, no hotels. -/
def exStateC2 : PlannerState := { flight_options := [exF500, exF300] }

/-- C2 counterexample: on the spec's own example the total-cost computation
uses the first option ($500), not the lowest-priced one ($300) — the
cheapest option is only what the itinerary prose displays. -/
theorem c2_counterexample :
    itinTotalCost exStateC2 = 500 ∧ (500 : Rat) ≠ 300 ∧
    itinShownFlight exStateC2 = some exF300 := by
  refine ⟨?_, by norm_num, ?_⟩
  · norm_num [itinTotalCost, exStateC2, exF500, exF300]
  · norm_num [itinShownFlight, exStateC2, pyMinPrice, priceInfLt, exF500, exF300]

/-- C2 amended: with no explicit flight selection and a non-empty
flight-option list, the total cost is the FIRST flight option's price times
the passenger count, plus the selected-or-first hotel's precomputed total
price (zero when there is no hotel data). -/
theorem c2_amended_first_flight_cost (s : PlannerState) (f : FlightOption)
    (rest : List FlightOption)
    (hsel : s.selected_flight = none) (hopts : s.flight_options = f :: rest) :
    itinTotalCost s
      = f.price.getD 0 * ((s.num_passengers.getD 1 : Int) : Rat) +
        (match s.selected_hotel with
         | some h => h.total_price.getD 0
         | none =>
           match s.hotel_options with
           | [] => 0
           | h :: _ => h.total_price.getD 0) := by
  cases hh : s.selected_hotel with
  | some h => simp [itinTotalCost, hsel, hopts, hh]
  | none =>
    cases hho : s.hotel_options with
    | nil => simp [itinTotalCost, hsel, hopts, hh, hho]
    | cons h t => simp [itinTotalCost, hsel, hopts, hh, hho]

/-- Witness for the amended C2 on the spec example state. -/
theorem c2_amended_first_flight_cost_witness :
    itinTotalCost exStateC2
      = exF500.price.getD 0 * ((exStateC2.num_passengers.getD 1 : Int) : Rat) +
        (match exStateC2.selected_hotel with
         | some h => h.total_price.getD 0
         | none =>
           match exStateC2.hotel_options with
           | [] => 0
           | h :: _ => h.total_price.getD 0) :=
  c2_amended_first_flight_cost exStateC2 exF500 [exF300] rfl rfl

theorem pyMaxRating_mem (xs : List HotelOption) (x : HotelOption) :
    pyMaxRating x xs = x ∨ pyMaxRating x xs ∈ xs := by
  induction xs generalizing x with
  | nil => exact .inl rfl
  | cons y ys ih =>
    have hstep : pyMaxRating x (y :: ys)
        = pyMaxRating (if x.rating.getD 0 < y.rating.getD 0 then y else x) ys := rfl
    rw [hstep]
    rcases ih (if x.rating.getD 0 < y.rating.getD 0 then y else x) with h | h
    · rw [h]
      split
      · exact .inr (List.mem_cons_self y ys)
      · exact .inl rfl
    · exact .inr (List.mem_cons_of_mem y h)

theorem pyMaxRating_ge (xs : List HotelOption) (x : HotelOption) :
    x.rating.getD 0 ≤ (pyMaxRating x xs).rating.getD 0 ∧
    ∀ y ∈ xs, y.rating.getD 0 ≤ (pyMaxRating x xs).rating.getD 0 := by
  induction xs generalizing x with
  | nil => exact ⟨le_refl _, by simp⟩
  | cons y ys ih =>
    have hstep : pyMaxRating x (y :: ys)
        = pyMaxRating (if x.rating.getD 0 < y.rating.getD 0 then y else x) ys := rfl
    rw [hstep]
    obtain ⟨hbase, hall⟩ := ih (if x.rating.getD 0 < y.rating.getD 0 then y else x)
    have hx : x.rating.getD 0
        ≤ (if x.rating.getD 0 < y.rating.getD 0 then y else x).rating.getD 0 := by
      split
      · next hlt => exact le_of_lt hlt
      · exact le_refl _
    have hy : y.rating.getD 0
        ≤ (if x.rating.getD 0 < y.rating.getD 0 then y else x).rating.getD 0 := by
      split
      · exact le_refl _
      · next hlt => exact le_of_not_lt hlt
    refine ⟨le_trans hx hbase, ?_⟩
    intro z hz
    rcases List.mem_cons.mp hz with rfl | hz2
    · exact le_trans hy hbase
    · exact hall z hz2

/-- Hotel option of the spec's example: rating 4.0, total price 600. -/
def exH40 : HotelOption := { rating := some 4, total_price := some 600 }

/-- Hotel option of the spec's example: rating 4.5, total price 900. -/
def exH45 : HotelOption := { rating := some (9 / 2), total_price := some 900 }

/-- The spec example state for hotel auto-selection. -/
def exStateC7 : PlannerState := { hotel_options := [exH40, exH45] }

/-- C7: with no explicit hotel selection and a non-empty option list, the
hotel whose details the itinerary summary interpolates has the maximum
rating among the options; on the spec's example the 4.5-rated hotel is
chosen. -/
theorem c7_summary_uses_max_rated_hotel :
    (∀ (s : PlannerState) (x : HotelOption) (xs : List HotelOption),
      s.selected_hotel = none → s.hotel_options = x :: xs →
      ∃ h, itinShownHotel s = some h ∧ h ∈ s.hotel_options ∧
        ∀ h2 ∈ s.hotel_options, h2.rating.getD 0 ≤ h.rating.getD 0) ∧
    itinShownHotel exStateC7 = some exH45 := by
  constructor
  · intro s x xs hsel hopts
    refine ⟨pyMaxRating x xs, ?_, ?_, ?_⟩
    · simp [itinShownHotel, hsel, hopts]
    · rw [hopts]
      rcases pyMaxRating_mem xs x with h | h
      · rw [h]
        exact List.mem_cons_self x xs
      · exact List.mem_cons_of_mem x h
    · intro h2 hh2
      rw [hopts] at hh2
      obtain ⟨hbase, hall⟩ := pyMaxRating_ge xs x
      rcases List.mem_cons.mp hh2 with rfl | h
      · exact hbase
      · exact hall h2 h
  · norm_num [itinShownHotel, exStateC7, pyMaxRating, exH40, exH45]

/-- Witness for C7 on the spec example state. -/
theorem c7_summary_uses_max_rated_hotel_witness :
    ∃ h, itinShownHotel exStateC7 = some h ∧ h ∈ exStateC7.hotel_options ∧
      ∀ h2 ∈ exStateC7.hotel_options, h2.rating.getD 0 ≤ h.rating.getD 0 :=
  c7_summary_uses_max_rated_hotel.1 exStateC7 exH40 [exH45] rfl rfl

/-- Provider forecast day with a 90-degree temperature (hot weather). -/
def exRawHot : RawWeatherDay :=
  { date := some "2025-07-01", temperature := some (.numv 90),
    condition := some "Sunny", precipitation_chance := some 0,
    humidity := some 40 }

/-- State holding a weather forecast exactly as the weather node builds it
from the hot provider day. -/
def exStateC8 : PlannerState :=
  { weather_forecast := [rawDayToWeather exRawHot] }

/-- C8 (failing input): the weather node stores the forecast value under the
`temperature` key, never under the schema's `temperature_high`, so on a
90-degree forecast the itinerary composer averages a default of 0 and
appends the warm-clothing recommendation instead of the light-clothing
one. -/
theorem c8_temperature_key_mismatch :
    (rawDayToWeather exRawHot).temperature = some 90 ∧
    (rawDayToWeather exRawHot).temperature_high = none ∧
    itinRecs exStateC8 = ["Pack warm clothing - temperatures will be cool"] ∧
    "Pack light, breathable clothing - warm weather expected" ∉ itinRecs exStateC8 := by
  have hrecs : itinRecs exStateC8 = ["Pack warm clothing - temperatures will be cool"] := by
    norm_num [itinRecs, itinBudgetRecs, itinPackRecs, exStateC8, rawDayToWeather,
              exRawHot, truthyRat]
  refine ⟨rfl, rfl, hrecs, ?_⟩
  rw [hrecs]
  decide

/-- C9 counterexample state: an empty query together with a pre-existing
error. -/
def exStateC9 : PlannerState := { user_query := "", errors := ["prior error"] }

/-- C9 counterexample: the intent classifier's missing-query branch
overwrites the error list with exactly ["No user query provided"], so a
pre-existing error is discarded and the prior list is no longer a prefix. -/
theorem c9_counterexample :
    (applyPatch exStateC9 (classify_intent_node exStateC9 envN)).errors
      = ["No user query provided"] ∧
    isPrefixL exStateC9.errors
      (applyPatch exStateC9 (classify_intent_node exStateC9 envN)).errors = false := by
  constructor <;> rfl

/-- C9 amended: every node except the intent classifier's missing-query
branch leaves the prior error list a prefix of the merged error list for
every input state and every oracle behaviour; the classifier does too
whenever the query is non-empty, or the query is empty but the prior error
list is empty (as at the entry of every fresh run). -/
theorem c9_amended_errors_append_only (s : PlannerState) (env : Env) :
    isPrefixL s.errors (applyPatch s (search_flights_node s env).1).errors = true ∧
    isPrefixL s.errors (applyPatch s (search_hotels_node s env).1).errors = true ∧
    isPrefixL s.errors (applyPatch s (check_weather_node s env).1).errors = true ∧
    isPrefixL s.errors (applyPatch s (search_activities_node s env).1).errors = true ∧
    isPrefixL s.errors (applyPatch s (generate_itinerary_node s env)).errors = true ∧
    isPrefixL s.errors (applyPatch s (generate_response_node s env)).errors = true ∧
    (s.user_query ≠ "" →
      isPrefixL s.errors (applyPatch s (classify_intent_node s env)).errors = true) ∧
    (s.errors = [] →
      isPrefixL s.errors (applyPatch s (classify_intent_node s env)).errors = true) := by
  refine ⟨?_, ?_, ?_, ?_, ?_, ?_, fun hq => ?_, fun he => ?_⟩
  · unfold search_flights_node
    try dsimp only
    repeat' split
    all_goals simp [applyPatch, isPrefixL_refl, isPrefixL_append]
  · unfold search_hotels_node
    try dsimp only
    repeat' split
    all_goals simp [applyPatch, isPrefixL_refl, isPrefixL_append]
  · unfold check_weather_node
    try dsimp only
    repeat' split
    all_goals simp [applyPatch, isPrefixL_refl, isPrefixL_append]
  · unfold search_activities_node
    try dsimp only
    repeat' split
    all_goals simp [applyPatch, isPrefixL_refl, isPrefixL_append]
  · unfold generate_itinerary_node
    try dsimp only
    repeat' split
    all_goals simp [applyPatch, isPrefixL_refl, isPrefixL_append]
  · unfold generate_response_node
    try dsimp only
    repeat' split
    all_goals simp [applyPatch, isPrefixL_refl, isPrefixL_append]
  · unfold classify_intent_node
    rw [if_neg hq]
    try dsimp only
    repeat' split
    all_goals simp [applyPatch, isPrefixL_refl, isPrefixL_append]
  · unfold classify_intent_node
    rw [he]
    try dsimp only
    repeat' split
    all_goals simp [applyPatch, isPrefixL, isPrefixL_refl, isPrefixL_append]

/-- Witness for the amended C9 at a non-empty query and a prior error. -/
theorem c9_amended_errors_append_only_witness :
    isPrefixL (PlannerState.errors { user_query := "hi", errors := ["e0"] })
      (applyPatch { user_query := "hi", errors := ["e0"] }
        (classify_intent_node { user_query := "hi", errors := ["e0"] } envN)).errors
      = true :=
  (c9_amended_errors_append_only
    { user_query := "hi", errors := ["e0"] } envN).2.2.2.2.2.2.1 (by decide)

theorem steps_classify (s : PlannerState) (env : Env) :
    (applyPatch s (classify_intent_node s env)).completed_steps
      = s.completed_steps ++ ["intent_classification"] := by
  unfold classify_intent_node
  repeat' split
  all_goals simp [applyPatch]

theorem steps_flight (s : PlannerState) (env : Env) :
    ∃ t, (applyPatch s (search_flights_node s env).1).completed_steps
        = s.completed_steps ++ [t] ∧
      (t = "flight_search_skipped" ∨ t = "flight_search") := by
  unfold search_flights_node
  try dsimp only
  repeat' split
  all_goals first
  | (refine ⟨"flight_search_skipped", ?_, .inl rfl⟩; simp [applyPatch]; done)
  | (refine ⟨"flight_search", ?_, .inr rfl⟩; simp [applyPatch]; done)

theorem steps_hotel (s : PlannerState) (env : Env) :
    ∃ t, (applyPatch s (search_hotels_node s env).1).completed_steps
        = s.completed_steps ++ [t] ∧
      (t = "hotel_search_skipped" ∨ t = "hotel_search") := by
  unfold search_hotels_node
  try dsimp only
  repeat' split
  all_goals first
  | (refine ⟨"hotel_search_skipped", ?_, .inl rfl⟩; simp [applyPatch]; done)
  | (refine ⟨"hotel_search", ?_, .inr rfl⟩; simp [applyPatch]; done)

theorem steps_weather (s : PlannerState) (env : Env) :
    ∃ t, (applyPatch s (check_weather_node s env).1).completed_steps
        = s.completed_steps ++ [t] ∧
      (t = "weather_check_skipped" ∨ t = "weather_check") := by
  unfold check_weather_node
  try dsimp only
  repeat' split
  all_goals first
  | (refine ⟨"weather_check_skipped", ?_, .inl rfl⟩; simp [applyPatch]; done)
  | (refine ⟨"weather_check", ?_, .inr rfl⟩; simp [applyPatch]; done)

theorem steps_activity (s : PlannerState) (env : Env) :
    ∃ t, (applyPatch s (search_activities_node s env).1).completed_steps
        = s.completed_steps ++ [t] ∧
      (t = "activity_search_skipped" ∨ t = "activity_search") := by
  unfold search_activities_node
  try dsimp only
  repeat' split
  all_goals first
  | (refine ⟨"activity_search_skipped", ?_, .inl rfl⟩; simp [applyPatch]; done)
  | (refine ⟨"activity_search", ?_, .inr rfl⟩; simp [applyPatch]; done)

theorem steps_itin (s : PlannerState) (env : Env) :
    (applyPatch s (generate_itinerary_node s env)).completed_steps
      = s.completed_steps ++ ["itinerary_generation"] := by
  unfold generate_itinerary_node
  repeat' split
  all_goals simp [applyPatch]

theorem steps_response (s : PlannerState) (env : Env) :
    (applyPatch s (generate_response_node s env)).completed_steps = s.completed_steps ∨
    (applyPatch s (generate_response_node s env)).completed_steps
      = s.completed_steps ++ ["response_generation"] := by
  unfold generate_response_node
  repeat' split
  · exact .inr (by simp [applyPatch])
  · exact .inl (by simp [applyPatch])

theorem response_sets_response (s : PlannerState) (env : Env) :
    (applyPatch s (generate_response_node s env)).response.isSome = true := by
  unfold generate_response_node
  repeat' split
  all_goals simp [applyPatch]

theorem noitin_classify (env : Env) (s0 : PlannerState)
    (h : "itinerary_generation" ∉ s0.completed_steps) :
    "itinerary_generation" ∉ (afterClassify env s0).completed_steps := by
  unfold afterClassify
  rw [steps_classify]
  exact not_mem_append_single h (by decide)

theorem noitin_flight (s : PlannerState) (env : Env)
    (h : "itinerary_generation" ∉ s.completed_steps) :
    "itinerary_generation" ∉ (applyPatch s (search_flights_node s env).1).completed_steps := by
  obtain ⟨t, ht, hn⟩ := steps_flight s env
  rw [ht]
  rcases hn with rfl | rfl <;> exact not_mem_append_single h (by decide)

theorem noitin_hotel (s : PlannerState) (env : Env)
    (h : "itinerary_generation" ∉ s.completed_steps) :
    "itinerary_generation" ∉ (applyPatch s (search_hotels_node s env).1).completed_steps := by
  obtain ⟨t, ht, hn⟩ := steps_hotel s env
  rw [ht]
  rcases hn with rfl | rfl <;> exact not_mem_append_single h (by decide)

theorem noitin_weather (s : PlannerState) (env : Env)
    (h : "itinerary_generation" ∉ s.completed_steps) :
    "itinerary_generation" ∉ (applyPatch s (check_weather_node s env).1).completed_steps := by
  obtain ⟨t, ht, hn⟩ := steps_weather s env
  rw [ht]
  rcases hn with rfl | rfl <;> exact not_mem_append_single h (by decide)

theorem noitin_activity (s : PlannerState) (env : Env)
    (h : "itinerary_generation" ∉ s.completed_steps) :
    "itinerary_generation" ∉ (applyPatch s (search_activities_node s env).1).completed_steps := by
  obtain ⟨t, ht, hn⟩ := steps_activity s env
  rw [ht]
  rcases hn with rfl | rfl <;> exact not_mem_append_single h (by decide)

theorem noitin_chain (env : Env) (s0 : PlannerState)
    (h : "itinerary_generation" ∉ s0.completed_steps) :
    "itinerary_generation" ∉ (afterChain env s0).completed_steps := by
  unfold afterChain
  try dsimp only
  exact noitin_activity _ env (noitin_weather _ env (noitin_hotel _ env
    (noitin_flight _ env (noitin_classify env s0 h))))

/-- C1: for every initial state and every oracle behaviour (including
raising providers and completion services), the workflow run invokes the
response generator and terminates with a non-null final response field. -/
theorem c1_run_always_produces_response (env : Env) (s0 : PlannerState) :
    (runWorkflow env s0).1.response.isSome = true ∧
    "response_generator" ∈ (runWorkflow env s0).2 := by
  unfold runWorkflow
  try dsimp only
  repeat' split
  all_goals exact ⟨response_sets_response _ env, by simp⟩

/-- C4: when the completion response is malformed or the extraction call
fails (the oracle raises), the intent classifier does not raise: intent
becomes the generic category with a descriptive error appended, the first
routing decision ends the run, and only classification and response
generation execute — no service node runs. -/
theorem c4_malformed_extraction_routes_to_response (s0 : PlannerState) (env : Env)
    (e : String) (henv : env.classifyResult = .error e) (hq : s0.user_query ≠ "") :
    (afterClassify env s0).intent = some "general" ∧
    (afterClassify env s0).errors
      = s0.errors ++ ["Intent classification error: " ++ e] ∧
    route_after_intent (afterClassify env s0) = .finish ∧
    (runWorkflow env s0).2 = ["classify_intent", "response_generator"] := by
  have hint : (afterClassify env s0).intent = some "general" := by
    simp [afterClassify, classify_intent_node, if_neg hq, henv, applyPatch]
  have herr : (afterClassify env s0).errors
      = s0.errors ++ ["Intent classification error: " ++ e] := by
    simp [afterClassify, classify_intent_node, if_neg hq, henv, applyPatch]
  have hroute : route_after_intent (afterClassify env s0) = .finish := by
    unfold route_after_intent
    try dsimp only
    rw [hint]
    split
    · rfl
    · simp
  refine ⟨hint, herr, hroute, ?_⟩
  unfold runWorkflow
  try dsimp only
  rw [hroute]

/-- Witness for C4 with a failing classification oracle. -/
theorem c4_malformed_extraction_routes_to_response_witness :
    (afterClassify envN { user_query := "hello" }).intent = some "general" ∧
    (afterClassify envN { user_query := "hello" }).errors
      = PlannerState.errors { user_query := "hello" }
          ++ ["Intent classification error: " ++ "parse failure"] ∧
    route_after_intent (afterClassify envN { user_query := "hello" }) = .finish ∧
    (runWorkflow envN { user_query := "hello" }).2
      = ["classify_intent", "response_generator"] :=
  c4_malformed_extraction_routes_to_response { user_query := "hello" } envN
    "parse failure" rfl (by decide)

/-- C5: the second routing decision ends the run for every single-category
search intent; under `plan_trip` it generates an itinerary exactly when
flights or hotels produced results; and at run level the itinerary composer
executes (leaving its completed-step marker) exactly on the decision's
`toItinerary` outcome. -/
theorem c5_second_routing_decision (s : PlannerState) (env : Env) (s0 : PlannerState) :
    ((s.intent = some "search_flights" ∨ s.intent = some "search_hotels" ∨
      s.intent = some "search_activities" ∨ s.intent = some "check_weather") →
      route_after_parallel_search s = .finish) ∧
    (s.intent = some "plan_trip" →
      (route_after_parallel_search s = .toItinerary ↔
        (s.flight_options ≠ [] ∨ s.hotel_options ≠ []))) ∧
    ("itinerary_generation" ∉ s0.completed_steps →
      route_after_intent (afterClassify env s0) = .finish →
      "itinerary_generation" ∉ (runWorkflow env s0).1.completed_steps) ∧
    ("itinerary_generation" ∉ s0.completed_steps →
      route_after_intent (afterClassify env s0) = .search →
      route_after_parallel_search (afterChain env s0) = .finish →
      "itinerary_generation" ∉ (runWorkflow env s0).1.completed_steps) ∧
    (route_after_intent (afterClassify env s0) = .search →
      route_after_parallel_search (afterChain env s0) = .toItinerary →
      "itinerary_generation" ∈ (runWorkflow env s0).1.completed_steps) := by
  refine ⟨fun h => ?_, fun h => ?_, fun hm hr1 => ?_, fun hm hr1 hr2 => ?_,
          fun hr1 hr2 => ?_⟩
  · unfold route_after_parallel_search
    try dsimp only
    rcases h with h | h | h | h <;> rw [h] <;> simp
  · unfold route_after_parallel_search
    try dsimp only
    rw [h]
    simp only [Option.getD_some]
    norm_num
    constructor
    · intro hr
      by_contra hno
      push_neg at hno
      obtain ⟨h1, h2⟩ := hno
      simp [h1, h2] at hr
    · intro hor
      rcases hor with h1 | h1
      · cases hfo : s.flight_options with
        | nil => exact absurd hfo h1
        | cons a as => simp [hfo]
      · cases hho : s.hotel_options with
        | nil => exact absurd hho h1
        | cons a as =>
          cases s.flight_options <;> simp [hho]
  · unfold runWorkflow
    try dsimp only
    rw [hr1]
    have hs1 := noitin_classify env s0 hm
    rcases steps_response (afterClassify env s0) env with hc | hc <;> rw [hc]
    · exact hs1
    · exact not_mem_append_single hs1 (by decide)
  · unfold runWorkflow
    try dsimp only
    rw [hr1, hr2]
    have hs5 := noitin_chain env s0 hm
    rcases steps_response (afterChain env s0) env with hc | hc <;> rw [hc]
    · exact hs5
    · exact not_mem_append_single hs5 (by decide)
  · unfold runWorkflow
    try dsimp only
    rw [hr1, hr2]
    have h6 : "itinerary_generation"
        ∈ (applyPatch (afterChain env s0)
            (generate_itinerary_node (afterChain env s0) env)).completed_steps := by
      rw [steps_itin]
      exact List.mem_append_right _ (by decide)
    rcases steps_response
        (applyPatch (afterChain env s0)
          (generate_itinerary_node (afterChain env s0) env)) env with hc | hc <;> rw [hc]
    · exact h6
    · exact List.mem_append_left _ h6

/-- Witness for C5 at a concrete single-category-search state. -/
theorem c5_second_routing_decision_witness :
    route_after_parallel_search { intent := some "search_flights" } = .finish :=
  (c5_second_routing_decision { intent := some "search_flights" } envN {}).1 (.inl rfl)

end TravelV2
